import Mathlib

/-!
Verification of the Trivy security-report generator
(`generate_security_report.py`).

The Python module is embedded shallowly:

* a SARIF input document is modelled structurally, with every field the
  code looks up made an explicit `Option` (absence = the key missing);
* the Python `dict` returned by `parse_sarif_file` is the tagged union
  `PyScanResult` (`failure reason` models `{"error": reason}`);
* the fixed-key counter dict `severity_counts` is `SeverityCounts`; a
  lookup `severity_counts[sev] += 1` on an unknown key is a `KeyError`,
  modelled by `Except.error` (the caught exception text);
* indexing `[0]` into a present-but-empty `locations` list is an
  `IndexError`, likewise modelled by `Except.error`;
* the blanket `except Exception` of the source maps any such error to a
  `failure` result with the prefix `"SARIF 파일 파싱 실패: "`;
* report strings are built with `++` exactly in the order the source
  concatenates them; `datetime.now().strftime(...)` is an opaque string
  parameter, and the three `os.environ.get` metadata lookups are the
  `Option String` fields of `EnvMeta`.
-/

set_option autoImplicit false

namespace TrivyReport

/-- `artifactLocation` object: optional `uri` field. -/
structure ArtifactLocation where
  uri : Option String
  deriving DecidableEq

/-- `physicalLocation` object: optional `artifactLocation` field. -/
structure PhysicalLocation where
  artifactLocation : Option ArtifactLocation
  deriving DecidableEq

/-- One element of a result's `locations` array. -/
structure SarifLocation where
  physicalLocation : Option PhysicalLocation
  deriving DecidableEq

/-- One element of a run's `results` array; each field the code reads is
optional, `none` meaning the key is absent from the JSON object. -/
structure SarifResult where
  level : Option String
  messageText : Option String
  locations : Option (List SarifLocation)
  ruleId : Option String
  deriving DecidableEq

/-- One element of the document's `runs` array. -/
structure SarifRun where
  results : Option (List SarifResult)
  deriving DecidableEq

/-- A decoded SARIF document, shaped as the code walks it. -/
structure SarifDoc where
  runs : Option (List SarifRun)
  deriving DecidableEq

/-- The fixed-key dict `severity_counts = {"error": 0, "warning": 0,
"note": 0, "none": 0}`; `noneKey` models the `"none"` key. -/
structure SeverityCounts where
  error : Nat
  warning : Nat
  note : Nat
  noneKey : Nat
  deriving DecidableEq

/-- One entry of the `results` list built by `parse_sarif_file`. -/
structure Finding where
  message : String
  severity : String
  location : String
  rule_id : String
  deriving DecidableEq

/-- The success payload of `parse_sarif_file`. -/
structure PySuccess where
  total_vulnerabilities : Nat
  severity_distribution : SeverityCounts
  all_vulnerabilities : List Finding
  deriving DecidableEq

/-- The dict returned by `parse_sarif_file`: either `{"error": reason}` or
the success payload. -/
inductive PyScanResult where
  | failure (reason : String)
  | success (s : PySuccess)
  deriving DecidableEq

/-- What the parser finds at the given path: no file at all
(`os.path.exists` is false), a file whose read/`json.load` raises (with
the exception detail `str(e)`), or a decoded document. -/
inductive FileInput where
  | missing
  | undecodable (detail : String)
  | doc (d : SarifDoc)
  deriving DecidableEq

/-- `severity_counts[severity] += 1`: bumps the matching key, or raises
`KeyError` (whose `str` is the quoted key) for an unknown severity. -/
def bumpSeverity (c : SeverityCounts) (sev : String) : Except String SeverityCounts :=
  if sev = "error" then .ok { c with error := c.error + 1 }
  else if sev = "warning" then .ok { c with warning := c.warning + 1 }
  else if sev = "note" then .ok { c with note := c.note + 1 }
  else if sev = "none" then .ok { c with noneKey := c.noneKey + 1 }
  else .error ("\x27" ++ sev ++ "\x27")

/-- The chained lookups
`loc.get("physicalLocation", {}).get("artifactLocation", {}).get("uri", "알 수 없음")`. -/
def locationUri (loc : SarifLocation) : String :=
  match loc.physicalLocation with
  | none => "알 수 없음"
  | some p =>
    match p.artifactLocation with
    | none => "알 수 없음"
    | some a => a.uri.getD "알 수 없음"

/-- `result.get("locations", [{}])[0]` followed by the uri lookups: an
absent key defaults to `[{}]`, a present but empty list raises
`IndexError` (`str` is `"list index out of range"`). -/
def extractLocation : Option (List SarifLocation) → Except String String
  | none => .ok (locationUri { physicalLocation := none })
  | some [] => .error "list index out of range"
  | some (l :: _) => .ok (locationUri l)

/-- The body of the inner `for result in run.get("results", [])` loop:
bump the severity counter (may raise `KeyError`), then build the finding
record (the location lookup may raise `IndexError`) and append it. -/
def processResult (r : SarifResult) (acc : List Finding × SeverityCounts) :
    Except String (List Finding × SeverityCounts) :=
  let sev := r.level.getD "none"
  match bumpSeverity acc.2 sev with
  | .error e => .error e
  | .ok counts =>
    match extractLocation r.locations with
    | .error e => .error e
    | .ok loc =>
      .ok (acc.1 ++ [{ message := r.messageText.getD "설명 없음",
                       severity := sev,
                       location := loc,
                       rule_id := r.ruleId.getD "알 수 없음" }], counts)

/-- The inner loop over one run's results, stopping at the first raised
exception. -/
def walkResults : List SarifResult → List Finding × SeverityCounts →
    Except String (List Finding × SeverityCounts)
  | [], acc => .ok acc
  | r :: rest, acc =>
    match processResult r acc with
    | .error e => .error e
    | .ok acc2 => walkResults rest acc2

/-- The outer loop `for run in data.get("runs", [])`. -/
def walkRuns : List SarifRun → List Finding × SeverityCounts →
    Except String (List Finding × SeverityCounts)
  | [], acc => .ok acc
  | run :: rest, acc =>
    match walkResults (run.results.getD []) acc with
    | .error e => .error e
    | .ok acc2 => walkRuns rest acc2

/-- The initial `severity_counts` dict. -/
def initialCounts : SeverityCounts := ⟨0, 0, 0, 0⟩

/-- `parse_sarif_file`: missing file, undecodable file, or walk of the
decoded document with the blanket `except` wrapping any raised error. -/
def parse_sarif_file (f : FileInput) : PyScanResult :=
  match f with
  | .missing => .failure "파일을 찾을 수 없습니다"
  | .undecodable e => .failure ("SARIF 파일 파싱 실패: " ++ e)
  | .doc d =>
    match walkRuns (d.runs.getD []) ([], initialCounts) with
    | .error e => .failure ("SARIF 파일 파싱 실패: " ++ e)
    | .ok (results, counts) =>
      .success { total_vulnerabilities := results.length,
                 severity_distribution := counts,
                 all_vulnerabilities := results }

/-! ## Aggregation (`generate_ai_report`, lines 49–68) -/

/-- The four running totals of `generate_ai_report`. -/
structure CombinedStats where
  total_vulns : Nat
  total_high : Nat
  total_medium : Nat
  total_low : Nat
  deriving DecidableEq

/-- One `if "error" not in ...` block of the statistics accumulation: a
failure dict contributes nothing, a success dict adds its total and its
`error`/`warning`/`note` counts. -/
def addCategory (st : CombinedStats) (r : PyScanResult) : CombinedStats :=
  match r with
  | .failure _ => st
  | .success s =>
    { total_vulns := st.total_vulns + s.total_vulnerabilities,
      total_high := st.total_high + s.severity_distribution.error,
      total_medium := st.total_medium + s.severity_distribution.warning,
      total_low := st.total_low + s.severity_distribution.note }

/-- The statistics accumulation of `generate_ai_report`: zero totals,
then the filesystem block, then the IaC block. -/
def combinedStats (fs iac : PyScanResult) : CombinedStats :=
  addCategory (addCategory ⟨0, 0, 0, 0⟩ fs) iac

/-! ## Narrative assembly (`generate_ai_analysis`, lines 152–285) -/

/-- Lines 159–167: the risk-tier heading block, with the branch structure
of the source (`if high == 0 and medium == 0 ... elif high > 0 ... elif
medium > 0`); the final branch appends nothing. -/
def riskAssessmentBlock (high_count medium_count : Nat) : String :=
  if high_count = 0 ∧ medium_count = 0 then
    "#### 🟢 현재 보안 상태: 양호\n" ++
    "현재 프로젝트의 보안 상태는 양호합니다. 발견된 취약점이 없거나 모두 낮은 심각도입니다.\n\n"
  else if high_count > 0 then
    "#### 🔴 현재 보안 상태: 위험\n" ++
    "**" ++ toString high_count ++ "개의 높은 심각도 취약점**이 발견되어 **즉각적인 조치**가 필요합니다.\n\n"
  else if medium_count > 0 then
    "#### 🟡 현재 보안 상태: 주의\n" ++
    "**" ++ toString medium_count ++ "개의 중간 심각도 취약점**이 발견되어 우선순위를 정해 해결해야 합니다.\n\n"
  else ""

/-- The severity filters applied to `all_vulnerabilities`. -/
def highVulns (s : PySuccess) : List Finding :=
  s.all_vulnerabilities.filter (fun v => v.severity == "error")

/-- Findings with raw severity `"warning"`. -/
def mediumVulns (s : PySuccess) : List Finding :=
  s.all_vulnerabilities.filter (fun v => v.severity == "warning")

/-- Findings with raw severity `"note"`. -/
def lowVulns (s : PySuccess) : List Finding :=
  s.all_vulnerabilities.filter (fun v => v.severity == "note")

/-- The keys of the `file_vulns` dict in insertion order (first
occurrence of each location). -/
def orderedKeys (vulns : List Finding) : List String :=
  vulns.foldl (fun acc v => if acc.contains v.location then acc else acc ++ [v.location]) []

/-- One bullet of a severity sub-list, `    * **{rule_id}**: {message}`. -/
def vulnLine (v : Finding) : String :=
  "    * **" ++ v.rule_id ++ "**: " ++ v.message ++ "\n"

/-- One severity sub-list as the sequence of lines the source appends:
nothing when the filtered list is empty; otherwise a heading line with
the tier label and count, the first `cap` findings, a single
`... 및 {k - cap}개 더` line when the count exceeds the cap, and the
closing blank line. -/
def severitySubListLines (label : String) (vulns : List Finding) (cap : Nat) : List String :=
  if vulns.isEmpty then []
  else
    ["* **" ++ label ++ " (" ++ toString vulns.length ++ "개)**\n"]
    ++ (vulns.take cap).map vulnLine
    ++ (if cap < vulns.length then
          ["    * ... 및 " ++ toString (vulns.length - cap) ++ "개 더\n"]
        else [])
    ++ ["\n"]

/-- The sub-list as the string the source builds by repeated `+=`. -/
def severitySubList (label : String) (vulns : List Finding) (cap : Nat) : String :=
  String.join (severitySubListLines label vulns cap)

/-- Lines 184–186: the filesystem lead sentence, emitted only when the
`file_vulns` grouping is nonempty; `main_files` is the first three keys. -/
def fsLeadLine (vulns : List Finding) : String :=
  if vulns.isEmpty then ""
  else
    "주로 `" ++
    (match (orderedKeys vulns).take 3 with
     | [] => "알 수 없음"
     | f :: _ => f) ++
    "` 파일에서 관련 취약점이 다수 발견되었습니다.\n\n"

/-- Lines 235–238: the IaC lead sentences. -/
def iacLeadLine (vulns : List Finding) : String :=
  if vulns.isEmpty then ""
  else
    "`" ++
    (match (orderedKeys vulns).take 3 with
     | [] => "알 수 없음"
     | f :: _ => f) ++
    "` 파일에서 인프라 설정과 관련된 다수의 보안 취약점이 발견되었습니다. " ++
    "특히, 네트워크 접근 제어 및 데이터 암호화에 대한 문제가 많습니다.\n\n"

/-- Lines 217–220: the fixed filesystem recommendations. -/
def fsRecommendations : String :=
  "**권장사항:**\n" ++
  "* 관련된 **모든 취약 패키지를 최신 버전으로 업데이트**하세요.\n" ++
  "* 더 이상 사용하지 않거나, 알려진 취약점이 지속적으로 발생하는 라이브러리는 **대체재를 검토**해 보세요.\n" ++
  "* **정기적인 보안 업데이트 일정을 수립**하고, 패키지 관리 정책을 적용하여 의존성 취약점을 사전에 방지하는 것이 중요합니다.\n\n"

/-- Lines 269–273: the fixed IaC recommendations. -/
def iacRecommendations : String :=
  "**권장사항:**\n" ++
  "* **Terraform 설정에서 보안 모범 사례를 적극적으로 적용**하세요.\n" ++
  "* **민감한 정보가 하드코딩되지 않도록 확인**하고, AWS Secrets Manager 등 안전한 서비스로 관리하세요.\n" ++
  "* **최소 권한 원칙**에 따라 리소스 접근 권한을 설정하고, 불필요하게 넓은 접근 권한(예: 0.0.0.0/0)을 제한하세요.\n" ++
  "* **인프라 코드 리뷰 프로세스를 강화**하여 배포 전 보안 취약점을 미리 발견하고 수정할 수 있도록 합니다.\n\n"

/-- Lines 172–220: the filesystem detailed-analysis section, emitted only
for a success dict with a positive total; caps are HIGH 5, MEDIUM 5,
LOW 3. -/
def fsAnalysisBlock (r : PyScanResult) : String :=
  match r with
  | .failure _ => ""
  | .success s =>
    if s.total_vulnerabilities > 0 then
      "#### 📁 파일 시스템 취약점 상세 분석 (총 " ++ toString s.total_vulnerabilities ++ "개)\n\n"
      ++ fsLeadLine s.all_vulnerabilities
      ++ severitySubList "높음" (highVulns s) 5
      ++ severitySubList "중간" (mediumVulns s) 5
      ++ severitySubList "낮음" (lowVulns s) 3
      ++ fsRecommendations
    else ""

/-- Lines 223–273: the IaC detailed-analysis section; caps are HIGH 8,
MEDIUM 5, LOW 5. -/
def iacAnalysisBlock (r : PyScanResult) : String :=
  match r with
  | .failure _ => ""
  | .success s =>
    if s.total_vulnerabilities > 0 then
      "#### 🏗️ 인프라스트럭처 코드 취약점 상세 분석 (총 " ++ toString s.total_vulnerabilities ++ "개)\n\n"
      ++ iacLeadLine s.all_vulnerabilities
      ++ severitySubList "높음" (highVulns s) 8
      ++ severitySubList "중간" (mediumVulns s) 5
      ++ severitySubList "낮음" (lowVulns s) 5
      ++ iacRecommendations
    else ""

/-- Lines 276–283: the general recommendations, with the two conditional
action lines. -/
def generalRecommendations (high_count medium_count : Nat) : String :=
  "### 🛡️ 일반 보안 권장사항\n\n" ++
  (if high_count > 0 then
     "1. **즉시 조치**: 발견된 **높은 심각도 취약점(총 " ++ toString high_count ++ "개)**을 우선적으로 해결해야 합니다.\n"
   else "") ++
  (if medium_count > 0 then
     "2. **계획적 조치**: 중간 심각도 취약점에 대한 해결 계획을 수립하고 순차적으로 조치하세요.\n"
   else "") ++
  "3. **정기 모니터링**: 자동화된 보안 스캔을 CI/CD 파이프라인에 통합하여 지속적으로 보안 상태를 모니터링하세요.\n" ++
  "4. **팀 교육**: 보안 모범 사례 및 최신 위협 동향에 대해 팀원들을 교육하여 보안 인식을 높이세요.\n" ++
  "5. **문서화**: 조직의 보안 정책 및 절차를 명확히 문서화하여 일관된 보안 관리를 유지하세요.\n\n"

/-- `generate_ai_analysis` (the `low_count` parameter is accepted but,
as in the source, never read). -/
def generate_ai_analysis (high_count medium_count _low_count : Nat)
    (trivy_fs trivy_iac : PyScanResult) : String :=
  riskAssessmentBlock high_count medium_count
  ++ "---\n\n"
  ++ fsAnalysisBlock trivy_fs
  ++ iacAnalysisBlock trivy_iac
  ++ generalRecommendations high_count medium_count

/-! ## Report composition (`generate_ai_report`, lines 45–150) -/

/-- The three `os.environ.get` metadata lookups (`GITHUB_REF`,
`GITHUB_SHA`, `GITHUB_REPOSITORY`); `none` means the variable is unset. -/
structure EnvMeta where
  github_ref : Option String
  github_sha : Option String
  github_repository : Option String
  deriving DecidableEq

/-- Lines 100–106 / 110–116: the per-category status bullet(s). -/
def categoryStatus (r : PyScanResult) : String :=
  match r with
  | .failure e => "* **상태**: ❌ " ++ e ++ "\n"
  | .success s =>
    "* **상태**: ✅ 완료\n"
    ++ "* **발견된 취약점**: " ++ toString s.total_vulnerabilities
    ++ "개 (높음: " ++ toString s.severity_distribution.error
    ++ ", 중간: " ++ toString s.severity_distribution.warning
    ++ ", 낮음: " ++ toString s.severity_distribution.note ++ ")\n"

/-- Line 122: `overall_status = "✅ 통과" if total_high == 0 else "❌ 실패"`. -/
def overall_status (total_high : Nat) : String :=
  if total_high = 0 then "✅ 통과" else "❌ 실패"

/-- Lines 123–148: the final status block and the fixed closing text. -/
def finalStatusBlock (total_high : Nat) : String :=
  "\n---\n\n### 🚨 최종 보안 상태: " ++ overall_status total_high
  ++ "\n\n이번 보안 스캔 결과, 시스템의 보안 상태는 **"
  ++ (if total_high = 0 then "성공" else "실패")
  ++ "**로 판단됩니다. "
  ++ (if total_high > 0 then
        "발견된 CRITICAL 및 HIGH 심각도 취약점들을 시급히 해결하여 보안 위험을 낮춰야 합니다."
      else "현재 보안 상태는 양호합니다.")
  ++ "\n\n---\n\n### 📊 결과 위치 및 다음 단계\n\n"
  ++ "* **GitHub Security 탭**: 상세 취약점 보고서를 확인하고, GitHub의 보안 기능을 활용하여 취약점을 추적하고 관리할 수 있습니다.\n"
  ++ "* **SARIF 파일**: 외부 분석 도구에서 활용할 수 있도록 SARIF 파일을 다운로드하세요.\n"
  ++ "* **아티팩트**: 워크플로우 아티팩트에서 상세 보고서를 확인할 수 있습니다.\n\n"
  ++ "**다음 단계:**\n"
  ++ "1. GitHub Security 탭에서 모든 결과를 면밀히 검토하세요.\n"
  ++ "2. 가장 중요하거나 높은 심각도의 문제부터 해결 작업을 시작하세요.\n"
  ++ "3. 파일 시스템 취약점의 경우, 관련된 의존성 패키지를 최신 보안 패치가 적용된 버전으로 업데이트하세요.\n"
  ++ "4. 인프라스트럭처 코드 취약점의 경우, Terraform 설정을 보안 권장사항에 따라 수정하고 재배포하세요.\n\n"
  ++ "---\n*이 보고서는 Trivy 보안 스캔 파이프라인에 의해 자동으로 생성되었습니다.*\n\n"
  ++ "추가적으로 궁금한 점이나 특정 취약점에 대한 자세한 정보가 필요하시면 언제든지 문의해주세요.\n"

/-- The opening of the report f-string, up to and including the text
right before the interpolated timestamp. -/
def reportOpening : String :=
  "## 🤖 AI 보안 스캔 보고서\n\n---\n\n### 📅 스캔 개요\n* **스캔 날짜**: "

/-- The rest of the header f-string after the timestamp: metadata lines
(commit id truncated to 8 characters), combined statistics, and the
heading of the per-category block. -/
def reportHeadAfterTime (env : EnvMeta) (st : CombinedStats) : String :=
  "\n* **브랜치**: `" ++ env.github_ref.getD "알 수 없음"
  ++ "`\n* **커밋**: `" ++ (env.github_sha.getD "알 수 없음").take 8
  ++ "`\n* **저장소**: `" ++ env.github_repository.getD "알 수 없음"
  ++ "`\n\n---\n\n### 🔍 Trivy 스캔 결과 요약\n\n이번 스캔에서 총 **"
  ++ toString st.total_vulns ++ "개**의 취약점이 발견되었으며, 그중 **"
  ++ toString st.total_high ++ "개는 높은 심각도**를 가진 것으로 나타났습니다.\n\n"
  ++ "#### 📊 전체 통계\n* **총 취약점 수**: " ++ toString st.total_vulns
  ++ "개\n* **높은 심각도**: " ++ toString st.total_high
  ++ "개\n* **중간 심각도**: " ++ toString st.total_medium
  ++ "개\n* **낮은 심각도**: " ++ toString st.total_low
  ++ "개\n\n#### 🛠️ 스캔 도구별 결과\n\n**1. Trivy 파일 시스템 스캔**\n"

/-- `generate_ai_report`: statistics, analysis, and the report string
assembled by the source's sequence of `+=`; `now` is the formatted
`datetime.now()` value. -/
def generate_ai_report (trivy_fs trivy_iac : PyScanResult) (env : EnvMeta)
    (now : String) : String :=
  let st := combinedStats trivy_fs trivy_iac
  reportOpening ++ now ++ reportHeadAfterTime env st
  ++ categoryStatus trivy_fs
  ++ "\n**2. Trivy 인프라스트럭처 코드 스캔**\n"
  ++ categoryStatus trivy_iac
  ++ "\n---\n\n"
  ++ generate_ai_analysis st.total_high st.total_medium st.total_low trivy_fs trivy_iac
  ++ "\n"
  ++ finalStatusBlock st.total_high

/-! ## Spec-side definitions

These follow the specification's wording and are compared with the
definitions above (refinement-style claims). -/

/-- Spec: risk tier DANGER / CAUTION / HEALTHY. -/
inductive RiskTier where
  | DANGER
  | CAUTION
  | HEALTHY
  deriving DecidableEq

/-- Modelled from the spec: `classify(highCount, mediumCount)` evaluated
in priority order (high positive, else medium positive, else healthy). -/
def classifySpec (highCount mediumCount : Nat) : RiskTier :=
  if highCount > 0 then .DANGER
  else if mediumCount > 0 then .CAUTION
  else .HEALTHY

/-- The heading-plus-sentence block each risk tier prints. -/
def tierText (t : RiskTier) (highCount mediumCount : Nat) : String :=
  match t with
  | .DANGER =>
    "#### 🔴 현재 보안 상태: 위험\n" ++
    "**" ++ toString highCount ++ "개의 높은 심각도 취약점**이 발견되어 **즉각적인 조치**가 필요합니다.\n\n"
  | .CAUTION =>
    "#### 🟡 현재 보안 상태: 주의\n" ++
    "**" ++ toString mediumCount ++ "개의 중간 심각도 취약점**이 발견되어 우선순위를 정해 해결해야 합니다.\n\n"
  | .HEALTHY =>
    "#### 🟢 현재 보안 상태: 양호\n" ++
    "현재 프로젝트의 보안 상태는 양호합니다. 발견된 취약점이 없거나 모두 낮은 심각도입니다.\n\n"

/-- Spec-side contribution of one category to the combined total
(a failure contributes zero). -/
def catTotal : PyScanResult → Nat
  | .failure _ => 0
  | .success s => s.total_vulnerabilities

/-- Spec-side contribution to the combined HIGH count. -/
def catHigh : PyScanResult → Nat
  | .failure _ => 0
  | .success s => s.severity_distribution.error

/-- Spec-side contribution to the combined MEDIUM count. -/
def catMedium : PyScanResult → Nat
  | .failure _ => 0
  | .success s => s.severity_distribution.warning

/-- Spec-side contribution to the combined LOW count. -/
def catLow : PyScanResult → Nat
  | .failure _ => 0
  | .success s => s.severity_distribution.note

/-- Contribution of one category's NONE-tier count. -/
def catNone : PyScanResult → Nat
  | .failure _ => 0
  | .success s => s.severity_distribution.noneKey

/-- Replace a success dict's NONE-tier count (used to state that the
NONE tier influences neither verdict nor risk tier). -/
def withNoneCount (r : PyScanResult) (n : Nat) : PyScanResult :=
  match r with
  | .failure e => .failure e
  | .success s =>
    .success { s with severity_distribution := { s.severity_distribution with noneKey := n } }

/-- The four raw severity labels that are keys of `severity_counts`. -/
def knownLevel (sev : String) : Bool :=
  sev == "error" || sev == "warning" || sev == "note" || sev == "none"

/-- Effective severity of one result (`result.get("level", "none")`). -/
def effectiveLevel (r : SarifResult) : String :=
  r.level.getD "none"

/-- Whether one result's effective severity is outside the four counter
keys (the situation the bump would turn into a `KeyError`). -/
def badLevelResult (r : SarifResult) : Bool :=
  !knownLevel (effectiveLevel r)

/-- A document contains a result whose effective severity is outside the
four counter keys. -/
def docHasUnknownLevel (d : SarifDoc) : Bool :=
  (d.runs.getD []).any fun run => (run.results.getD []).any badLevelResult

/-- Whether a parse outcome is the failure variant. -/
def PyScanResult.isFailure : PyScanResult → Bool
  | .failure _ => true
  | .success _ => false

/-- Everything `generate_ai_report` emits after the interpolated
timestamp; it depends only on the two scan results and the metadata. -/
def reportTail (trivy_fs trivy_iac : PyScanResult) (env : EnvMeta) : String :=
  let st := combinedStats trivy_fs trivy_iac
  reportHeadAfterTime env st
  ++ categoryStatus trivy_fs
  ++ "\n**2. Trivy 인프라스트럭처 코드 스캔**\n"
  ++ categoryStatus trivy_iac
  ++ "\n---\n\n"
  ++ generate_ai_analysis st.total_high st.total_medium st.total_low trivy_fs trivy_iac
  ++ "\n"
  ++ finalStatusBlock st.total_high

/-! ## Concrete example documents -/

/-- A document whose single result carries the unrecognized raw severity
label `"info"` and is otherwise well-formed. -/
def unknownLevelDoc : SarifDoc :=
  ⟨some [⟨some [⟨some "info", some "finding text", none, some "RULE-X"⟩]⟩]⟩

/-- A document with a single result whose `level` key is absent
(message and rule id optional). -/
def mkAbsentLevelDoc (m rid : Option String) : SarifDoc :=
  ⟨some [⟨some [⟨none, m, none, rid⟩]⟩]⟩

/-- A document whose second result carries a present-but-empty
`locations` array; the first result is fully well-formed. -/
def emptyLocationsDoc : SarifDoc :=
  ⟨some [⟨some [⟨some "error", some "first finding", some [⟨some ⟨some ⟨some "a.tf"⟩⟩⟩], some "RULE-1"⟩,
               ⟨some "note", some "second finding", some [], some "RULE-2"⟩]⟩]⟩

/-- A document whose single result has no `locations` key at all. -/
def absentLocationsDoc : SarifDoc :=
  ⟨some [⟨some [⟨some "error", some "first finding", none, some "RULE-1"⟩]⟩]⟩

/-- A document contributing one NONE-tier finding. -/
def noneFindingDoc : SarifDoc :=
  mkAbsentLevelDoc (some "plain finding") (some "RULE-N")

/-- Sample findings for concrete truncation checks. -/
def wFinding1 : Finding := ⟨"msg one", "error", "lib/a", "R1"⟩

/-- A second sample finding. -/
def wFinding2 : Finding := ⟨"msg two", "error", "lib/b", "R2"⟩

/-! ## Parser invariants -/

/-- Sum of the four counter values. -/
def sumCounts (c : SeverityCounts) : Nat :=
  c.error + c.warning + c.note + c.noneKey

theorem bumpSeverity_ok_sum {c c2 : SeverityCounts} {sev : String}
    (h : bumpSeverity c sev = .ok c2) : sumCounts c2 = sumCounts c + 1 := by
  unfold bumpSeverity at h
  split_ifs at h <;> injection h with h <;> subst h <;> simp [sumCounts] <;> omega

theorem bumpSeverity_ok_noneKey {c c2 : SeverityCounts} {sev : String}
    (h : bumpSeverity c sev = .ok c2) :
    c2.noneKey = c.noneKey + (if sev = "none" then 1 else 0) := by
  unfold bumpSeverity at h
  split_ifs at h with h1 h2 h3 h4 <;> injection h with h <;> subst h <;> simp_all

theorem bumpSeverity_unknown {c : SeverityCounts} {sev : String}
    (h : knownLevel sev = false) :
    bumpSeverity c sev = .error ("\x27" ++ sev ++ "\x27") := by
  simp only [knownLevel, Bool.or_eq_false_iff, beq_eq_false_iff_ne] at h
  obtain ⟨⟨⟨h1, h2⟩, h3⟩, h4⟩ := h
  simp [bumpSeverity, h1, h2, h3, h4]

/-- The accumulator invariant of the parsing loops: the counters sum to
the number of findings so far, and the `"none"` counter counts exactly
the findings of severity `"none"`. -/
def ParseInv (acc : List Finding × SeverityCounts) : Prop :=
  sumCounts acc.2 = acc.1.length ∧
  acc.2.noneKey = (acc.1.filter (fun v => v.severity == "none")).length

theorem processResult_inv {r : SarifResult} {acc acc2 : List Finding × SeverityCounts}
    (h : processResult r acc = .ok acc2) (hinv : ParseInv acc) : ParseInv acc2 := by
  obtain ⟨hsum, hnone⟩ := hinv
  cases hb : bumpSeverity acc.2 (r.level.getD "none") with
  | error e => simp [processResult, hb] at h
  | ok counts =>
    cases hl : extractLocation r.locations with
    | error e => simp [processResult, hb, hl] at h
    | ok loc =>
      simp only [processResult, hb, hl] at h
      injection h with h
      subst h
      refine ⟨?_, ?_⟩
      · have hb1 := bumpSeverity_ok_sum hb
        simp [hb1, hsum]
      · have hb2 := bumpSeverity_ok_noneKey hb
        by_cases hs : r.level.getD "none" = "none" <;>
          simp [hb2, hnone, hs, List.filter_append]

theorem walkResults_inv (rs : List SarifResult) :
    ∀ acc acc2, walkResults rs acc = .ok acc2 → ParseInv acc → ParseInv acc2 := by
  induction rs with
  | nil =>
    intro acc acc2 h hinv
    simp only [walkResults, Except.ok.injEq] at h
    exact h ▸ hinv
  | cons r rest ih =>
    intro acc acc2 h hinv
    simp only [walkResults] at h
    split at h
    · exact absurd h (by simp)
    · rename_i a2 hp
      exact ih _ _ h (processResult_inv hp hinv)

theorem walkRuns_inv (runs : List SarifRun) :
    ∀ acc acc2, walkRuns runs acc = .ok acc2 → ParseInv acc → ParseInv acc2 := by
  induction runs with
  | nil =>
    intro acc acc2 h hinv
    simp only [walkRuns, Except.ok.injEq] at h
    exact h ▸ hinv
  | cons run rest ih =>
    intro acc acc2 h hinv
    simp only [walkRuns] at h
    split at h
    · exact absurd h (by simp)
    · rename_i a2 hw
      exact ih _ _ h (walkResults_inv _ _ _ hw hinv)

/-- Every success value returned by the parser satisfies the counting
invariants. -/
theorem parse_success_inv {f : FileInput} {s : PySuccess}
    (h : parse_sarif_file f = .success s) :
    sumCounts s.severity_distribution = s.total_vulnerabilities ∧
    s.total_vulnerabilities = s.all_vulnerabilities.length ∧
    s.severity_distribution.noneKey =
      (s.all_vulnerabilities.filter (fun v => v.severity == "none")).length := by
  cases f with
  | missing => simp [parse_sarif_file] at h
  | undecodable e => simp [parse_sarif_file] at h
  | doc d =>
    cases hw : walkRuns (d.runs.getD []) ([], initialCounts) with
    | error e => simp [parse_sarif_file, hw] at h
    | ok acc =>
      obtain ⟨results, counts⟩ := acc
      have hinv := walkRuns_inv _ _ _ hw ⟨rfl, rfl⟩
      simp only [parse_sarif_file, hw] at h
      injection h with h
      subst h
      exact ⟨hinv.1, rfl, hinv.2⟩

/-! ## Unknown severity labels abort the whole parse -/

theorem processResult_unknown {r : SarifResult}
    (acc : List Finding × SeverityCounts)
    (h : knownLevel (effectiveLevel r) = false) :
    processResult r acc = .error ("\x27" ++ effectiveLevel r ++ "\x27") := by
  unfold effectiveLevel at h
  simp only [processResult, bumpSeverity_unknown h]
  rfl

theorem walkResults_unknown (rs : List SarifResult) :
    ∀ acc, rs.any badLevelResult = true →
      ∃ e, walkResults rs acc = .error e := by
  induction rs with
  | nil => simp
  | cons r rest ih =>
    intro acc hany
    simp only [List.any_cons, Bool.or_eq_true] at hany
    by_cases hr : badLevelResult r = true
    · have hbad : knownLevel (effectiveLevel r) = false := by
        simpa [badLevelResult] using hr
      refine ⟨"\x27" ++ effectiveLevel r ++ "\x27", ?_⟩
      simp [walkResults, processResult_unknown acc hbad]
    · have htail : rest.any badLevelResult = true := by
        rcases hany with h1 | h2
        · exact absurd h1 hr
        · exact h2
      cases hp : processResult r acc with
      | error e => exact ⟨e, by simp [walkResults, hp]⟩
      | ok acc2 =>
        obtain ⟨e, he⟩ := ih acc2 htail
        exact ⟨e, by simp [walkResults, hp, he]⟩

theorem walkRuns_unknown (runs : List SarifRun) :
    ∀ acc, (runs.any fun run => (run.results.getD []).any badLevelResult) = true →
      ∃ e, walkRuns runs acc = .error e := by
  induction runs with
  | nil => simp
  | cons run rest ih =>
    intro acc hany
    simp only [List.any_cons, Bool.or_eq_true] at hany
    by_cases hr : (run.results.getD []).any badLevelResult = true
    · obtain ⟨e, he⟩ := walkResults_unknown _ acc hr
      exact ⟨e, by simp [walkRuns, he]⟩
    · have htail : (rest.any fun run => (run.results.getD []).any badLevelResult) = true := by
        rcases hany with h1 | h2
        · exact absurd h1 hr
        · exact h2
      cases hw : walkResults (run.results.getD []) acc with
      | error e => exact ⟨e, by simp [walkRuns, hw]⟩
      | ok acc2 =>
        obtain ⟨e, he⟩ := ih acc2 htail
        exact ⟨e, by simp [walkRuns, hw, he]⟩

theorem parse_unknown_level_fails {d : SarifDoc}
    (h : docHasUnknownLevel d = true) :
    (parse_sarif_file (.doc d)).isFailure = true := by
  obtain ⟨e, he⟩ := walkRuns_unknown (d.runs.getD []) ([], initialCounts) h
  simp [parse_sarif_file, he, PyScanResult.isFailure]

/-! ## Aggregation lemmas -/

/-- The sequential accumulation equals the element-wise sum of the two
categories' contributions. -/
theorem combinedStats_eq (fs iac : PyScanResult) :
    combinedStats fs iac =
      { total_vulns := catTotal fs + catTotal iac,
        total_high := catHigh fs + catHigh iac,
        total_medium := catMedium fs + catMedium iac,
        total_low := catLow fs + catLow iac } := by
  cases fs <;> cases iac <;>
    simp [combinedStats, addCategory, catTotal, catHigh, catMedium, catLow]

/-- On parser output, one category's total is the sum of its four tier
contributions. -/
theorem parse_catTotal (f : FileInput) :
    catTotal (parse_sarif_file f) =
      catHigh (parse_sarif_file f) + catMedium (parse_sarif_file f) +
      catLow (parse_sarif_file f) + catNone (parse_sarif_file f) := by
  cases hp : parse_sarif_file f with
  | failure r => simp [catTotal, catHigh, catMedium, catLow, catNone]
  | success s =>
    obtain ⟨h1, _, _⟩ := parse_success_inv hp
    unfold sumCounts at h1
    simp only [catTotal, catHigh, catMedium, catLow, catNone]
    omega

theorem withNoneCount_catHigh (r : PyScanResult) (n : Nat) :
    catHigh (withNoneCount r n) = catHigh r := by
  cases r <;> simp [withNoneCount, catHigh]

theorem withNoneCount_catMedium (r : PyScanResult) (n : Nat) :
    catMedium (withNoneCount r n) = catMedium r := by
  cases r <;> simp [withNoneCount, catMedium]

/-! ## Claims -/

/-- C1: the overall verdict is PASS (`"✅ 통과"`) iff the combined HIGH
count — the sum of the HIGH counts of the two categories, a failed
category contributing zero — is zero, and FAIL (`"❌ 실패"`) otherwise;
for every pair of inputs, the MEDIUM and LOW counts have no effect on
the verdict (any two input pairs with the same combined HIGH count get
the same verdict). -/
theorem claim_C1_verdict (fs iac : PyScanResult) :
    (overall_status (combinedStats fs iac).total_high = "✅ 통과" ↔
      catHigh fs + catHigh iac = 0) ∧
    (overall_status (combinedStats fs iac).total_high = "❌ 실패" ↔
      catHigh fs + catHigh iac ≠ 0) ∧
    (∀ fs2 iac2 : PyScanResult,
      catHigh fs + catHigh iac = catHigh fs2 + catHigh iac2 →
      overall_status (combinedStats fs iac).total_high =
        overall_status (combinedStats fs2 iac2).total_high) := by
  have hc : ∀ a b : PyScanResult,
      (combinedStats a b).total_high = catHigh a + catHigh b := by
    intro a b
    rw [combinedStats_eq]
  refine ⟨?_, ?_, ?_⟩
  · rw [hc]
    by_cases h : catHigh fs + catHigh iac = 0
    · simp [overall_status, h]
    · simp only [overall_status, if_neg h]
      exact iff_of_false (by decide) h
  · rw [hc]
    by_cases h : catHigh fs + catHigh iac = 0
    · simp only [overall_status, if_pos h]
      exact iff_of_false (by decide) (by simp [h])
    · simp [overall_status, h]
  · intro fs2 iac2 h
    rw [hc, hc, h]

/-- C1 witness: two input pairs with the same combined HIGH count but
different MEDIUM counts receive the same verdict. -/
theorem claim_C1_verdict_witness :
    catHigh (.success ⟨3, ⟨2, 1, 0, 0⟩, []⟩) + catHigh (.failure "x") =
      catHigh (.success ⟨2, ⟨2, 0, 0, 0⟩, []⟩) + catHigh (.failure "y") ∧
    overall_status (combinedStats (.success ⟨3, ⟨2, 1, 0, 0⟩, []⟩) (.failure "x")).total_high =
      overall_status (combinedStats (.success ⟨2, ⟨2, 0, 0, 0⟩, []⟩) (.failure "y")).total_high :=
  ⟨by decide, (claim_C1_verdict _ _).2.2 _ _ (by decide)⟩

/-- C5: the combined severity counts and combined total computed by the
sequential accumulation equal the element-wise sums over the two
categories, a Failure category contributing zero to every count and to
the total. -/
theorem claim_C5_elementwise (fs iac : PyScanResult) :
    combinedStats fs iac =
      { total_vulns := catTotal fs + catTotal iac,
        total_high := catHigh fs + catHigh iac,
        total_medium := catMedium fs + catMedium iac,
        total_low := catLow fs + catLow iac } :=
  combinedStats_eq fs iac

/-- C7: the emitted risk-tier block follows the priority policy DANGER
(high positive), else CAUTION (medium positive), else HEALTHY — exactly
one tier's text is emitted. -/
theorem claim_C7_risk_tier (high_count medium_count : Nat) :
    riskAssessmentBlock high_count medium_count =
      tierText (classifySpec high_count medium_count) high_count medium_count := by
  unfold riskAssessmentBlock classifySpec tierText
  split_ifs <;> first | rfl | omega

/-- C3: for every input on which the parse succeeds, the four severity
counts sum to the stored total, which equals the length of the findings
sequence. -/
theorem claim_C3_success_invariant (f : FileInput) (s : PySuccess)
    (h : parse_sarif_file f = .success s) :
    s.severity_distribution.error + s.severity_distribution.warning +
      s.severity_distribution.note + s.severity_distribution.noneKey =
      s.total_vulnerabilities ∧
    s.total_vulnerabilities = s.all_vulnerabilities.length := by
  obtain ⟨h1, h2, _⟩ := parse_success_inv h
  exact ⟨h1, h2⟩

/-- C3 witness: the invariant on a concrete one-warning document. -/
theorem claim_C3_success_invariant_witness :
    parse_sarif_file (.doc ⟨some [⟨some [⟨some "warning", none, none, none⟩]⟩]⟩) =
      .success ⟨1, ⟨0, 1, 0, 0⟩, [⟨"설명 없음", "warning", "알 수 없음", "알 수 없음"⟩]⟩ ∧
    (0 + 1 + 0 + 0 = 1 ∧ 1 = 1) := by
  refine ⟨by rfl, ?_⟩
  exact claim_C3_success_invariant (.doc ⟨some [⟨some [⟨some "warning", none, none, none⟩]⟩]⟩)
    ⟨1, ⟨0, 1, 0, 0⟩, [⟨"설명 없음", "warning", "알 수 없음", "알 수 없음"⟩]⟩ (by rfl)

/-- C6: a missing file yields `Failure{"파일을 찾을 수 없습니다"}` ("file
not found"), an undecodable document yields
`Failure{"SARIF 파일 파싱 실패: <detail>"}` ("parse error: <detail>"),
and the parse boundary never raises: every input produces either a
Failure or a Success value. -/
theorem claim_C6_parse_boundary :
    parse_sarif_file .missing = .failure "파일을 찾을 수 없습니다" ∧
    (∀ e : String,
      parse_sarif_file (.undecodable e) = .failure ("SARIF 파일 파싱 실패: " ++ e)) ∧
    (∀ f : FileInput,
      (∃ r, parse_sarif_file f = .failure r) ∨ ∃ s, parse_sarif_file f = .success s) := by
  refine ⟨rfl, fun e => rfl, fun f => ?_⟩
  cases hp : parse_sarif_file f with
  | failure r => exact Or.inl ⟨r, rfl⟩
  | success s => exact Or.inr ⟨s, rfl⟩

/-- C9: a result element with a present-but-empty `locations` array
makes the whole parse return a parse-error Failure (`IndexError`),
discarding the other, well-formed finding; the `"알 수 없음"` location
default applies when the `locations` key is entirely absent. -/
theorem claim_C9_empty_locations :
    parse_sarif_file (.doc emptyLocationsDoc) =
      .failure "SARIF 파일 파싱 실패: list index out of range" ∧
    parse_sarif_file (.doc absentLocationsDoc) =
      .success ⟨1, ⟨1, 0, 0, 0⟩, [⟨"first finding", "error", "알 수 없음", "RULE-1"⟩]⟩ :=
  ⟨rfl, rfl⟩

/-- C2 counterexample: on a document whose single, otherwise well-formed
result carries the unrecognized raw severity label `"info"`, the parse
returns a Failure (the caught `KeyError`) instead of normalizing the
level to the NONE tier and including the result. -/
theorem claim_C2_counterexample :
    parse_sarif_file (.doc unknownLevelDoc) =
      .failure "SARIF 파일 파싱 실패: \x27info\x27" :=
  rfl

/-- C2 (amended): only an absent raw severity level is normalized to the
NONE tier and included in the parse result; a raw severity level outside
the four counter keys (`"error"`, `"warning"`, `"note"`, `"none"`) makes
the parse of the whole document return a Failure. -/
theorem claim_C2_amended (d : SarifDoc) (m rid : Option String)
    (h : docHasUnknownLevel d = true) :
    (parse_sarif_file (.doc d)).isFailure = true ∧
    parse_sarif_file (.doc (mkAbsentLevelDoc m rid)) =
      .success ⟨1, ⟨0, 0, 0, 1⟩,
        [⟨m.getD "설명 없음", "none", "알 수 없음", rid.getD "알 수 없음"⟩]⟩ :=
  ⟨parse_unknown_level_fails h, rfl⟩

/-- C2 witness: the amended claim at the concrete `"info"` document. -/
theorem claim_C2_amended_witness :
    docHasUnknownLevel unknownLevelDoc = true ∧
    (parse_sarif_file (.doc unknownLevelDoc)).isFailure = true ∧
    parse_sarif_file (.doc (mkAbsentLevelDoc none none)) =
      .success ⟨1, ⟨0, 0, 0, 1⟩, [⟨"설명 없음", "none", "알 수 없음", "알 수 없음"⟩]⟩ := by
  have h := claim_C2_amended unknownLevelDoc none none (by rfl)
  exact ⟨by rfl, h.1, h.2⟩

/-- C4: truncation law of the narrated severity sub-lists. When a tier's
finding count `k` exceeds its cap, the sub-list is the heading, the first
`cap` findings in input order, exactly one `... 및 (k - cap)개 더` summary
line, and the closing blank line; when `k ≤ cap` and `k > 0` all `k`
findings are listed with no summary line; an empty tier emits nothing.
The filesystem section applies caps HIGH=5, MEDIUM=5, LOW=3 and the
infrastructure section caps HIGH=8, MEDIUM=5, LOW=5. -/
theorem claim_C4_truncation :
    (∀ (label : String) (vulns : List Finding) (cap : Nat), cap < vulns.length →
      severitySubListLines label vulns cap =
        ("* **" ++ label ++ " (" ++ toString vulns.length ++ "개)**\n")
          :: ((vulns.take cap).map vulnLine
              ++ ["    * ... 및 " ++ toString (vulns.length - cap) ++ "개 더\n", "\n"])) ∧
    (∀ (label : String) (vulns : List Finding) (cap : Nat),
      vulns ≠ [] → vulns.length ≤ cap →
      severitySubListLines label vulns cap =
        ("* **" ++ label ++ " (" ++ toString vulns.length ++ "개)**\n")
          :: (vulns.map vulnLine ++ ["\n"])) ∧
    (∀ (label : String) (cap : Nat), severitySubListLines label [] cap = []) ∧
    (∀ s : PySuccess, fsAnalysisBlock (.success s) =
      if s.total_vulnerabilities > 0 then
        "#### 📁 파일 시스템 취약점 상세 분석 (총 " ++ toString s.total_vulnerabilities ++ "개)\n\n"
        ++ fsLeadLine s.all_vulnerabilities
        ++ severitySubList "높음" (highVulns s) 5
        ++ severitySubList "중간" (mediumVulns s) 5
        ++ severitySubList "낮음" (lowVulns s) 3
        ++ fsRecommendations
      else "") ∧
    (∀ s : PySuccess, iacAnalysisBlock (.success s) =
      if s.total_vulnerabilities > 0 then
        "#### 🏗️ 인프라스트럭처 코드 취약점 상세 분석 (총 " ++ toString s.total_vulnerabilities ++ "개)\n\n"
        ++ iacLeadLine s.all_vulnerabilities
        ++ severitySubList "높음" (highVulns s) 8
        ++ severitySubList "중간" (mediumVulns s) 5
        ++ severitySubList "낮음" (lowVulns s) 5
        ++ iacRecommendations
      else "") := by
  refine ⟨?_, ?_, ?_, fun s => rfl, fun s => rfl⟩
  · intro label vulns cap h
    cases vulns with
    | nil => simp at h
    | cons v vs =>
      have h2 : cap < vs.length + 1 := by simpa using h
      simp [severitySubListLines, h2]
  · intro label vulns cap hne hle
    cases vulns with
    | nil => exact absurd rfl hne
    | cons v vs =>
      have hle2 : vs.length + 1 ≤ cap := by simpa using hle
      have hnl : ¬ cap < vs.length + 1 := Nat.not_lt.mpr hle2
      simp [severitySubListLines, hnl, List.take_of_length_le hle, hle2]
  · intro label cap
    rfl

/-- C4 witness: a HIGH tier with two findings and cap 1 lists the first
finding plus a single "and 1 more" line. -/
theorem claim_C4_truncation_witness :
    1 < ([wFinding1, wFinding2] : List Finding).length ∧
    severitySubListLines "높음" [wFinding1, wFinding2] 1 =
      ["* **높음 (2개)**\n", "    * **R1**: msg one\n", "    * ... 및 1개 더\n", "\n"] := by
  have h := claim_C4_truncation.1 "높음" [wFinding1, wFinding2] 1 (by decide)
  refine ⟨by decide, ?_⟩
  rw [h]
  decide

/-- C8: report generation is deterministic — for any two runs on the
same parsed inputs and the same metadata, both reports consist of the
same fixed opening, the run's timestamp, and a common tail that depends
only on the inputs and metadata, so the outputs agree everywhere except
the timestamp. -/
theorem claim_C8_determinism (fs iac : PyScanResult) (env : EnvMeta) (t1 t2 : String) :
    generate_ai_report fs iac env t1 = reportOpening ++ (t1 ++ reportTail fs iac env) ∧
    generate_ai_report fs iac env t2 = reportOpening ++ (t2 ++ reportTail fs iac env) := by
  constructor <;> simp [generate_ai_report, reportTail, String.append_assoc]

/-- C10: NONE-tier findings are counted in the combined total but in no
narrated severity sub-list, and they never influence the risk tier or
the verdict; hence the combined total equals HIGH + MEDIUM + LOW plus
the NONE contributions, is always at least HIGH + MEDIUM + LOW, and
strictly exceeds it whenever a NONE-tier finding is present. -/
theorem claim_C10_none_tier (f1 f2 : FileInput) :
    ((combinedStats (parse_sarif_file f1) (parse_sarif_file f2)).total_vulns =
      (combinedStats (parse_sarif_file f1) (parse_sarif_file f2)).total_high +
      (combinedStats (parse_sarif_file f1) (parse_sarif_file f2)).total_medium +
      (combinedStats (parse_sarif_file f1) (parse_sarif_file f2)).total_low +
      (catNone (parse_sarif_file f1) + catNone (parse_sarif_file f2))) ∧
    (0 < catNone (parse_sarif_file f1) + catNone (parse_sarif_file f2) →
      (combinedStats (parse_sarif_file f1) (parse_sarif_file f2)).total_high +
      (combinedStats (parse_sarif_file f1) (parse_sarif_file f2)).total_medium +
      (combinedStats (parse_sarif_file f1) (parse_sarif_file f2)).total_low <
      (combinedStats (parse_sarif_file f1) (parse_sarif_file f2)).total_vulns) ∧
    (∀ (s : PySuccess) (v : Finding),
      v ∈ highVulns s ∨ v ∈ mediumVulns s ∨ v ∈ lowVulns s → v.severity ≠ "none") ∧
    (∀ (s : PySuccess),
      parse_sarif_file f1 = .success s →
      catNone (parse_sarif_file f1) =
        (s.all_vulnerabilities.filter (fun v => v.severity == "none")).length) ∧
    (∀ n1 n2 : Nat,
      overall_status (combinedStats (withNoneCount (parse_sarif_file f1) n1)
          (withNoneCount (parse_sarif_file f2) n2)).total_high =
        overall_status (combinedStats (parse_sarif_file f1) (parse_sarif_file f2)).total_high ∧
      riskAssessmentBlock
          (combinedStats (withNoneCount (parse_sarif_file f1) n1)
            (withNoneCount (parse_sarif_file f2) n2)).total_high
          (combinedStats (withNoneCount (parse_sarif_file f1) n1)
            (withNoneCount (parse_sarif_file f2) n2)).total_medium =
        riskAssessmentBlock
          (combinedStats (parse_sarif_file f1) (parse_sarif_file f2)).total_high
          (combinedStats (parse_sarif_file f1) (parse_sarif_file f2)).total_medium) := by
  have ht1 := parse_catTotal f1
  have ht2 := parse_catTotal f2
  have hsum : (combinedStats (parse_sarif_file f1) (parse_sarif_file f2)).total_vulns =
      (combinedStats (parse_sarif_file f1) (parse_sarif_file f2)).total_high +
      (combinedStats (parse_sarif_file f1) (parse_sarif_file f2)).total_medium +
      (combinedStats (parse_sarif_file f1) (parse_sarif_file f2)).total_low +
      (catNone (parse_sarif_file f1) + catNone (parse_sarif_file f2)) := by
    rw [combinedStats_eq]
    simp only []
    omega
  refine ⟨hsum, fun hpos => by omega, ?_, ?_, ?_⟩
  · rintro s v (hv | hv | hv) <;>
      simp only [highVulns, mediumVulns, lowVulns, List.mem_filter, beq_iff_eq] at hv <;>
      rw [hv.2] <;> decide
  · intro s hs
    obtain ⟨_, _, h3⟩ := parse_success_inv hs
    simp [hs, catNone, h3]
  · intro n1 n2
    rw [combinedStats_eq, combinedStats_eq]
    simp [withNoneCount_catHigh, withNoneCount_catMedium]

/-- C10 witness: one NONE finding (absent level) makes the combined
total strictly exceed HIGH + MEDIUM + LOW. -/
theorem claim_C10_none_tier_witness :
    0 < catNone (parse_sarif_file (.doc noneFindingDoc)) + catNone (parse_sarif_file .missing) ∧
    (combinedStats (parse_sarif_file (.doc noneFindingDoc)) (parse_sarif_file .missing)).total_high +
    (combinedStats (parse_sarif_file (.doc noneFindingDoc)) (parse_sarif_file .missing)).total_medium +
    (combinedStats (parse_sarif_file (.doc noneFindingDoc)) (parse_sarif_file .missing)).total_low <
    (combinedStats (parse_sarif_file (.doc noneFindingDoc)) (parse_sarif_file .missing)).total_vulns :=
  ⟨by decide, (claim_C10_none_tier (.doc noneFindingDoc) .missing).2.1 (by decide)⟩

end TrivyReport
